import Mathlib

/-!
Verification of the thread/message resource client (`src/threads.rs`).

The Rust code consists of serde-derived schema types (Thread, Message,
MessageObject, Content, annotation variants) and five request-building
operations (`Thread::create`, `Thread::from`, `Thread::update`,
`Thread::delete`, `Thread::create_message`).  We shallowly embed:

* serde_json values as an inductive `Json` (numbers restricted to the
  naturals actually produced by the `u32` fields of these types);
* each `#[derive(Serialize, Deserialize)]` as an explicit
  `toJson` / `fromJson` pair following the serde derive semantics:
  struct fields are looked up by name, unknown fields are ignored,
  a missing `Option` field decodes to `none`, a missing
  `#[serde(default)]` map decodes to the empty map, a missing required
  field or a type mismatch is a `SchemaError`, `#[serde(tag = "type")]`
  enums dispatch on the `type` discriminator string, and a plain enum
  unit variant serializes as the literal variant name;
* each operation as the HTTP `Request` (method, path, JSON body) it
  builds; network transmission itself is outside the embedding.
-/

/-- serde_json `Value`, with numbers as the naturals produced by the
`u32` fields of the embedded types. -/
inductive Json where
  | null : Json
  | bool : Bool → Json
  | num : Nat → Json
  | str : String → Json
  | arr : List Json → Json
  | obj : List (String × Json) → Json

/-- Field lookup in a JSON object: first binding of the key, as serde's
map-access deserialization sees the fields of these schema structs. -/
def getKey : List (String × Json) → String → Option Json
  | [], _ => none
  | (k, v) :: rest, key => if k = key then some v else getKey rest key

/-- serde decoding of a JSON string. -/
def Json.asStr : Json → Except String String
  | .str s => .ok s
  | _ => .error "SchemaError: expected a string"

/-- serde decoding of a `u32` field: a natural below 2^32. -/
def Json.asU32 : Json → Except String (Fin 4294967296)
  | .num n =>
      if h : n < 4294967296 then .ok ⟨n, h⟩
      else .error "SchemaError: integer out of u32 range"
  | _ => .error "SchemaError: expected an integer"

/-- serde sequence decoding: every element must decode. -/
def decAll (dec : Json → Except String α) : List Json → Except String (List α)
  | [] => .ok []
  | j :: js => do
      let a ← dec j
      let as ← decAll dec js
      pure (a :: as)

/-- serde decoding of a `Vec<String>`. -/
def Json.asStrList : Json → Except String (List String)
  | .arr xs => decAll Json.asStr xs
  | _ => .error "SchemaError: expected an array"

/-- serde map-entry decoding for `Map<String, String>`: every value must
be a string. -/
def decStrPairs : List (String × Json) → Except String (List (String × String))
  | [] => .ok []
  | (k, v) :: rest => do
      let s ← Json.asStr v
      let tail ← decStrPairs rest
      pure ((k, s) :: tail)

/-- serde decoding of a `Map<String, String>`. -/
def Json.asStrMap : Json → Except String (List (String × String))
  | .obj kvs => decStrPairs kvs
  | _ => .error "SchemaError: expected an object"

/-- A required struct field: serde errors when it is missing. -/
def getReq (kvs : List (String × Json)) (k : String)
    (dec : Json → Except String α) : Except String α :=
  match getKey kvs k with
  | some v => dec v
  | none => .error ("SchemaError: missing field " ++ k)

/-- An `Option` struct field: serde decodes a missing field or an
explicit `null` to `None`. -/
def getOpt (kvs : List (String × Json)) (k : String)
    (dec : Json → Except String α) : Except String (Option α) :=
  match getKey kvs k with
  | none => .ok none
  | some .null => .ok none
  | some v => (dec v).map some

/-- A `#[serde(default)]` struct field: a missing field decodes to the
default value. -/
def getDef (kvs : List (String × Json)) (k : String)
    (dec : Json → Except String α) (d : α) : Except String α :=
  match getKey kvs k with
  | none => .ok d
  | some v => dec v

/-- Encoding of a `Map<String, String>` metadata map. -/
def encodeStrMap (m : List (String × String)) : Json :=
  .obj (m.map (fun p => (p.1, Json.str p.2)))

/-- Encoding of an `Option<Vec<String>>` field: serde serializes `None`
as `null` and `Some(v)` as the array. -/
def encodeOptStrList : Option (List String) → Json
  | none => .null
  | some xs => .arr (xs.map Json.str)

/-- Rust `enum Role { Owner, Assistant }` from `threads.rs`. -/
inductive Role where
  | Owner : Role
  | Assistant : Role

/-- `Role::as_str`: the lowercase wire strings used by `create_message`. -/
def Role.as_str : Role → String
  | .Owner => "owner"
  | .Assistant => "assistant"

/-- The derived `Serialize` for `Role`: a plain unit variant serializes
as the literal variant name (no `rename` attribute is present). -/
def Role.toJson : Role → Json
  | .Owner => .str "Owner"
  | .Assistant => .str "Assistant"

/-- The derived `Deserialize` for `Role`: only the exact variant names
are accepted. -/
def Role.fromJson : Json → Except String Role
  | .str "Owner" => .ok .Owner
  | .str "Assistant" => .ok .Assistant
  | _ => .error "SchemaError: unknown variant for Role"

/-- Rust `struct Message` from `threads.rs`: the metadata map is
`#[serde(default)]`. -/
structure Message where
  role : Role
  content : String
  file_ids : Option (List String)
  metadata : List (String × String)

/-- Derived `Serialize` for `Message`. -/
def Message.toJson (m : Message) : Json :=
  .obj [("role", m.role.toJson),
        ("content", .str m.content),
        ("file_ids", encodeOptStrList m.file_ids),
        ("metadata", encodeStrMap m.metadata)]

/-- Derived `Deserialize` for `Message`. -/
def Message.fromJson : Json → Except String Message
  | .obj kvs => do
      let role ← getReq kvs "role" Role.fromJson
      let content ← getReq kvs "content" Json.asStr
      let file_ids ← getOpt kvs "file_ids" Json.asStrList
      let metadata ← getDef kvs "metadata" Json.asStrMap []
      pure { role := role, content := content,
             file_ids := file_ids, metadata := metadata }
  | _ => .error "SchemaError: expected an object"

/-- Rust `struct Thread` from `threads.rs`: `metadata` is an arbitrary
`serde_json::Value`. -/
structure Thread where
  id : String
  object : String
  created : Fin 4294967296
  metadata : Json

/-- Derived `Serialize` for `Thread`. -/
def Thread.toJson (t : Thread) : Json :=
  .obj [("id", .str t.id),
        ("object", .str t.object),
        ("created", .num t.created.val),
        ("metadata", t.metadata)]

/-- Derived `Deserialize` for `Thread`: `metadata` is a required field
accepting any JSON value. -/
def Thread.fromJson : Json → Except String Thread
  | .obj kvs => do
      let id ← getReq kvs "id" Json.asStr
      let object ← getReq kvs "object" Json.asStr
      let created ← getReq kvs "created" Json.asU32
      let metadata ← getReq kvs "metadata" Except.ok
      pure { id := id, object := object,
             created := created, metadata := metadata }
  | _ => .error "SchemaError: expected an object"

@[simp] lemma bind_ok (a : α) (f : α → Except ε β) :
    (Except.ok a >>= f) = f a := rfl

lemma asU32_num (v : Fin 4294967296) : Json.asU32 (Json.num v.val) = .ok v := by
  simp [Json.asU32, v.isLt]

lemma decAll_map_str (xs : List String) :
    decAll Json.asStr (xs.map Json.str) = .ok xs := by
  induction xs with
  | nil => rfl
  | cons x xs ih => simp [decAll, Json.asStr, ih, Except.bind, pure, Except.pure]

lemma decStrPairs_encode (m : List (String × String)) :
    decStrPairs (m.map (fun p => (p.1, Json.str p.2))) = .ok m := by
  induction m with
  | nil => rfl
  | cons p m ih => simp [decStrPairs, Json.asStr, ih, Except.bind, pure, Except.pure]

lemma message_roundtrip (m : Message) :
    Message.fromJson (Message.toJson m) = .ok m := by
  cases m with
  | mk role content file_ids metadata =>
    cases role <;> cases file_ids <;>
      simp [Message.toJson, Message.fromJson, getReq, getOpt, getDef, getKey,
            Role.toJson, Role.fromJson, Json.asStr, Json.asStrList, Json.asStrMap,
            encodeOptStrList, encodeStrMap, decAll_map_str, decStrPairs_encode,
            Except.bind, pure, Except.pure, Except.map]

lemma thread_roundtrip (t : Thread) :
    Thread.fromJson (Thread.toJson t) = .ok t := by
  cases t with
  | mk id object created metadata =>
    simp [Thread.toJson, Thread.fromJson, getReq, getKey, Json.asStr,
          asU32_num, Except.bind, pure, Except.pure]

/-- Rust `struct FileCitation` from `threads.rs`. -/
structure FileCitation where
  file_id : String
  quote : String

/-- Derived `Serialize` for `FileCitation`. -/
def FileCitation.toJson (c : FileCitation) : Json :=
  .obj [("file_id", .str c.file_id), ("quote", .str c.quote)]

/-- Derived `Deserialize` for `FileCitation`. -/
def FileCitation.fromJson : Json → Except String FileCitation
  | .obj kvs => do
      let file_id ← getReq kvs "file_id" Json.asStr
      let quote ← getReq kvs "quote" Json.asStr
      pure { file_id := file_id, quote := quote }
  | _ => .error "SchemaError: expected an object"

/-- Rust `struct FileCitationAnnotation` from `threads.rs`. -/
structure FileCitationAnnot where
  text : String
  file_citation : FileCitation
  start_index : Fin 4294967296
  end_index : Fin 4294967296

/-- The serialized fields of a `FileCitationAnnotation`; with
`#[serde(tag = "type")]` they sit beside the tag in one object. -/
def FileCitationAnnot.fields (a : FileCitationAnnot) : List (String × Json) :=
  [("text", .str a.text),
   ("file_citation", a.file_citation.toJson),
   ("start_index", .num a.start_index.val),
   ("end_index", .num a.end_index.val)]

/-- Decoding of the `FileCitationAnnotation` fields from the object that
also carries the tag. -/
def FileCitationAnnot.fromFields (kvs : List (String × Json)) :
    Except String FileCitationAnnot := do
  let text ← getReq kvs "text" Json.asStr
  let fc ← getReq kvs "file_citation" FileCitation.fromJson
  let si ← getReq kvs "start_index" Json.asU32
  let ei ← getReq kvs "end_index" Json.asU32
  pure { text := text, file_citation := fc, start_index := si, end_index := ei }

/-- Rust `struct FilePath` from `threads.rs` (named `FilePathRef` here). -/
structure FilePathRef where
  file_id : String

/-- Derived `Serialize` for `FilePath`. -/
def FilePathRef.toJson (p : FilePathRef) : Json :=
  .obj [("file_id", .str p.file_id)]

/-- Derived `Deserialize` for `FilePath`. -/
def FilePathRef.fromJson : Json → Except String FilePathRef
  | .obj kvs => do
      let file_id ← getReq kvs "file_id" Json.asStr
      pure { file_id := file_id }
  | _ => .error "SchemaError: expected an object"

/-- Rust `struct FilePathAnnotation` from `threads.rs`. -/
structure FilePathAnnot where
  text : String
  file_path : FilePathRef
  start_index : Fin 4294967296
  end_index : Fin 4294967296

/-- The serialized fields of a `FilePathAnnotation`. -/
def FilePathAnnot.fields (a : FilePathAnnot) : List (String × Json) :=
  [("text", .str a.text),
   ("file_path", a.file_path.toJson),
   ("start_index", .num a.start_index.val),
   ("end_index", .num a.end_index.val)]

/-- Decoding of the `FilePathAnnotation` fields. -/
def FilePathAnnot.fromFields (kvs : List (String × Json)) :
    Except String FilePathAnnot := do
  let text ← getReq kvs "text" Json.asStr
  let fp ← getReq kvs "file_path" FilePathRef.fromJson
  let si ← getReq kvs "start_index" Json.asU32
  let ei ← getReq kvs "end_index" Json.asU32
  pure { text := text, file_path := fp, start_index := si, end_index := ei }

/-- Rust `enum Annotation` from `threads.rs` (named `Annot` here): an
internally tagged enum, `#[serde(tag = "type")]`, with variants renamed
`file_citation` and `file_path`. -/
inductive Annot where
  | fileCitation : FileCitationAnnot → Annot
  | filePath : FilePathAnnot → Annot

/-- Derived `Serialize` for the tagged `Annotation` enum: the tag is
written alongside the variant's fields. -/
def Annot.toJson : Annot → Json
  | .fileCitation a => .obj (("type", Json.str "file_citation") :: a.fields)
  | .filePath a => .obj (("type", Json.str "file_path") :: a.fields)

/-- Derived `Deserialize` for the tagged `Annotation` enum: dispatch on
the `type` discriminator; an unrecognized tag is a `SchemaError`. -/
def Annot.fromJson : Json → Except String Annot
  | .obj kvs =>
      match getKey kvs "type" with
      | some (.str t) =>
          if t = "file_citation" then
            (FileCitationAnnot.fromFields kvs).map Annot.fileCitation
          else if t = "file_path" then
            (FilePathAnnot.fromFields kvs).map Annot.filePath
          else .error ("SchemaError: unknown variant " ++ t)
      | _ => .error "SchemaError: missing type tag"
  | _ => .error "SchemaError: expected an object"

lemma fileCitation_roundtrip (c : FileCitation) :
    FileCitation.fromJson (FileCitation.toJson c) = .ok c := by
  cases c with
  | mk f q =>
    simp [FileCitation.toJson, FileCitation.fromJson, getReq, getKey, Json.asStr]

lemma filePathRef_roundtrip (p : FilePathRef) :
    FilePathRef.fromJson (FilePathRef.toJson p) = .ok p := by
  cases p with
  | mk f =>
    simp [FilePathRef.toJson, FilePathRef.fromJson, getReq, getKey, Json.asStr]

lemma annot_roundtrip (a : Annot) :
    Annot.fromJson (Annot.toJson a) = .ok a := by
  cases a with
  | fileCitation a =>
    cases a with
    | mk t fc si ei =>
      simp [Annot.toJson, Annot.fromJson, FileCitationAnnot.fields,
            FileCitationAnnot.fromFields, getReq, getKey, Json.asStr,
            asU32_num, fileCitation_roundtrip, Except.map]
  | filePath a =>
    cases a with
    | mk t fp si ei =>
      simp [Annot.toJson, Annot.fromJson, FilePathAnnot.fields,
            FilePathAnnot.fromFields, getReq, getKey, Json.asStr,
            asU32_num, filePathRef_roundtrip, Except.map]

/-- Rust `struct Text` from `threads.rs`: a value with annotations. -/
structure Text where
  value : String
  annotations : List Annot

/-- Derived `Serialize` for `Text`. -/
def Text.toJson (t : Text) : Json :=
  .obj [("value", .str t.value),
        ("annotations", .arr (t.annotations.map Annot.toJson))]

/-- serde decoding of a `Vec<Annotation>`. -/
def Json.asAnnotList : Json → Except String (List Annot)
  | .arr xs => decAll Annot.fromJson xs
  | _ => .error "SchemaError: expected an array"

/-- Derived `Deserialize` for `Text`. -/
def Text.fromJson : Json → Except String Text
  | .obj kvs => do
      let value ← getReq kvs "value" Json.asStr
      let annotations ← getReq kvs "annotations" Json.asAnnotList
      pure { value := value, annotations := annotations }
  | _ => .error "SchemaError: expected an object"

/-- Rust `struct TextContent` from `threads.rs`. -/
structure TextContent where
  text : Text

/-- The serialized fields of a `TextContent` (tagged-enum payload). -/
def TextContent.fields (tc : TextContent) : List (String × Json) :=
  [("text", tc.text.toJson)]

/-- Decoding of `TextContent` fields from the tagged object. -/
def TextContent.fromFields (kvs : List (String × Json)) :
    Except String TextContent := do
  let t ← getReq kvs "text" Text.fromJson
  pure { text := t }

/-- Rust `struct ImageFile` from `threads.rs`. -/
structure ImageFile where
  file_id : String

/-- Derived `Serialize` for `ImageFile`. -/
def ImageFile.toJson (f : ImageFile) : Json :=
  .obj [("file_id", .str f.file_id)]

/-- Derived `Deserialize` for `ImageFile`. -/
def ImageFile.fromJson : Json → Except String ImageFile
  | .obj kvs => do
      let file_id ← getReq kvs "file_id" Json.asStr
      pure { file_id := file_id }
  | _ => .error "SchemaError: expected an object"

/-- Rust `struct ImageFileContent` from `threads.rs`. -/
structure ImageFileContent where
  image_file : ImageFile

/-- The serialized fields of an `ImageFileContent` (tagged-enum payload). -/
def ImageFileContent.fields (ic : ImageFileContent) : List (String × Json) :=
  [("image_file", ic.image_file.toJson)]

/-- Decoding of `ImageFileContent` fields from the tagged object. -/
def ImageFileContent.fromFields (kvs : List (String × Json)) :
    Except String ImageFileContent := do
  let f ← getReq kvs "image_file" ImageFile.fromJson
  pure { image_file := f }

/-- Rust `enum Content` from `threads.rs`: internally tagged with
`#[serde(tag = "type")]`, variants renamed `text` and `image_file`. -/
inductive Content where
  | text : TextContent → Content
  | imageFile : ImageFileContent → Content

/-- Derived `Serialize` for the tagged `Content` enum. -/
def Content.toJson : Content → Json
  | .text tc => .obj (("type", Json.str "text") :: tc.fields)
  | .imageFile ic => .obj (("type", Json.str "image_file") :: ic.fields)

/-- Derived `Deserialize` for the tagged `Content` enum: dispatch on the
`type` discriminator; an unrecognized tag is a `SchemaError`. -/
def Content.fromJson : Json → Except String Content
  | .obj kvs =>
      match getKey kvs "type" with
      | some (.str t) =>
          if t = "text" then
            (TextContent.fromFields kvs).map Content.text
          else if t = "image_file" then
            (ImageFileContent.fromFields kvs).map Content.imageFile
          else .error ("SchemaError: unknown variant " ++ t)
      | _ => .error "SchemaError: missing type tag"
  | _ => .error "SchemaError: expected an object"

lemma decAll_map_annot (xs : List Annot) :
    decAll Annot.fromJson (xs.map Annot.toJson) = .ok xs := by
  induction xs with
  | nil => rfl
  | cons a xs ih => simp [decAll, annot_roundtrip, ih]

lemma text_roundtrip (t : Text) :
    Text.fromJson (Text.toJson t) = .ok t := by
  cases t with
  | mk v a =>
    simp [Text.toJson, Text.fromJson, getReq, getKey, Json.asStr,
          Json.asAnnotList, decAll_map_annot]

lemma imageFile_roundtrip (f : ImageFile) :
    ImageFile.fromJson (ImageFile.toJson f) = .ok f := by
  cases f with
  | mk i => simp [ImageFile.toJson, ImageFile.fromJson, getReq, getKey, Json.asStr]

lemma content_roundtrip (c : Content) :
    Content.fromJson (Content.toJson c) = .ok c := by
  cases c with
  | text tc =>
    cases tc with
    | mk t =>
      simp [Content.toJson, Content.fromJson, TextContent.fields,
            TextContent.fromFields, getReq, getKey, text_roundtrip, Except.map]
  | imageFile ic =>
    cases ic with
    | mk f =>
      simp [Content.toJson, Content.fromJson, ImageFileContent.fields,
            ImageFileContent.fromFields, getReq, getKey,
            imageFile_roundtrip, Except.map]

/-- Rust `struct IncompleteDetails` from `threads.rs`. -/
structure IncompleteDetails where
  reason : String

/-- Derived `Serialize` for `IncompleteDetails`. -/
def IncompleteDetails.toJson (d : IncompleteDetails) : Json :=
  .obj [("reason", .str d.reason)]

/-- Derived `Deserialize` for `IncompleteDetails`. -/
def IncompleteDetails.fromJson : Json → Except String IncompleteDetails
  | .obj kvs => do
      let reason ← getReq kvs "reason" Json.asStr
      pure { reason := reason }
  | _ => .error "SchemaError: expected an object"

/-- Encoding of the `Option<IncompleteDetails>` field: serde serializes
`None` as `null`. -/
def encodeOptIncomplete : Option IncompleteDetails → Json
  | none => .null
  | some d => d.toJson

/-- Rust `struct MessageObject` from `threads.rs`: `incomplete_details`
and `metadata` are `#[serde(default)]`. -/
structure MessageObject where
  id : String
  object : String
  created : Fin 4294967296
  thread_id : String
  status : String
  incomplete_details : Option IncompleteDetails
  role : Role
  content : Content
  file_ids : Option (List String)
  metadata : List (String × String)

/-- Derived `Serialize` for `MessageObject`. -/
def MessageObject.toJson (m : MessageObject) : Json :=
  .obj [("id", .str m.id),
        ("object", .str m.object),
        ("created", .num m.created.val),
        ("thread_id", .str m.thread_id),
        ("status", .str m.status),
        ("incomplete_details", encodeOptIncomplete m.incomplete_details),
        ("role", m.role.toJson),
        ("content", m.content.toJson),
        ("file_ids", encodeOptStrList m.file_ids),
        ("metadata", encodeStrMap m.metadata)]

/-- Derived `Deserialize` for `MessageObject`. -/
def MessageObject.fromJson : Json → Except String MessageObject
  | .obj kvs => do
      let id ← getReq kvs "id" Json.asStr
      let object ← getReq kvs "object" Json.asStr
      let created ← getReq kvs "created" Json.asU32
      let thread_id ← getReq kvs "thread_id" Json.asStr
      let status ← getReq kvs "status" Json.asStr
      let incomplete_details ← getOpt kvs "incomplete_details" IncompleteDetails.fromJson
      let role ← getReq kvs "role" Role.fromJson
      let content ← getReq kvs "content" Content.fromJson
      let file_ids ← getOpt kvs "file_ids" Json.asStrList
      let metadata ← getDef kvs "metadata" Json.asStrMap []
      pure { id := id, object := object, created := created,
             thread_id := thread_id, status := status,
             incomplete_details := incomplete_details, role := role,
             content := content, file_ids := file_ids, metadata := metadata }
  | _ => .error "SchemaError: expected an object"

lemma incompleteDetails_roundtrip (d : IncompleteDetails) :
    IncompleteDetails.fromJson (IncompleteDetails.toJson d) = .ok d := by
  cases d with
  | mk r =>
    simp [IncompleteDetails.toJson, IncompleteDetails.fromJson, getReq,
          getKey, Json.asStr]

lemma messageObject_roundtrip (m : MessageObject) :
    MessageObject.fromJson (MessageObject.toJson m) = .ok m := by
  cases m with
  | mk id object created thread_id status icd role content file_ids metadata =>
    cases role <;> cases file_ids <;> cases icd <;>
      simp [MessageObject.toJson, MessageObject.fromJson, getReq, getOpt,
            getDef, getKey, Role.toJson, Role.fromJson, Json.asStr,
            Json.asStrList, Json.asStrMap, encodeOptStrList, encodeStrMap,
            encodeOptIncomplete, asU32_num, decAll_map_str, decStrPairs_encode,
            IncompleteDetails.toJson, IncompleteDetails.fromJson,
            content_roundtrip, Except.map]

/-- HTTP method of a request issued by the resource client. -/
inductive Method where
  | GET : Method
  | POST : Method
  | DELETE : Method

/-- An HTTP request as built by the resource client: the method, the
path relative to the fixed API base, and the JSON body if any. -/
structure Request where
  method : Method
  path : String
  body : Option Json

/-- The key/value fields of a request's JSON object body (empty when
there is no body). -/
def Request.bodyKVs (r : Request) : List (String × Json) :=
  match r.body with
  | some (.obj kvs) => kvs
  | _ => []

/-- The field names of a request's JSON object body. -/
def Request.bodyKeys (r : Request) : List String :=
  (Request.bodyKVs r).map Prod.fst

/-- The body value of an `Option<Value>` argument in a `json!` body: the
macro writes `None` as JSON `null`. -/
def encodeOptJson : Option Json → Json
  | none => .null
  | some j => j

/-- `Thread::create`: `openai_post("threads", json!({messages, metadata}))`. -/
def Thread.createRequest (messages : List Message)
    (metadata : List (String × String)) : Request :=
  { method := .POST, path := "threads",
    body := some (.obj [("messages", .arr (messages.map Message.toJson)),
                        ("metadata", encodeStrMap metadata)]) }

/-- `Thread::from`: `openai_get` of the thread path. -/
def Thread.fromRequest (id : String) : Request :=
  { method := .GET, path := "threads/" ++ id, body := none }

/-- `Thread::update`: `openai_post` of the thread path with a body
holding only the metadata map. -/
def Thread.updateRequest (id : String)
    (metadata : List (String × String)) : Request :=
  { method := .POST, path := "threads/" ++ id,
    body := some (.obj [("metadata", encodeStrMap metadata)]) }

/-- `Thread::delete`: `openai_delete` of the thread path. -/
def Thread.deleteRequest (id : String) : Request :=
  { method := .DELETE, path := "threads/" ++ id, body := none }

/-- `Thread::create_message`: `openai_post` of the messages path with a
`json!` body of `role.as_str()`, the content, the optional file id list
and the optional metadata value. -/
def Thread.createMessageRequest (id : String) (role : Role) (content : String)
    (file_ids : Option (List String)) (metadata : Option Json) : Request :=
  { method := .POST, path := "threads/" ++ id ++ "/messages",
    body := some (.obj [("role", .str role.as_str),
                        ("content", .str content),
                        ("file_ids", encodeOptStrList file_ids),
                        ("metadata", encodeOptJson metadata)]) }

/-- The fields of a JSON object value (empty for non-objects). -/
def Json.objFields : Json → List (String × Json)
  | .obj kvs => kvs
  | _ => []

/-- Whether a JSON value is an object all of whose values are strings,
i.e. the shape of a string-to-string metadata map. -/
def Json.isStringObj : Json → Bool
  | .obj kvs => kvs.all (fun p => match p.2 with | .str _ => true | _ => false)
  | _ => false

@[simp] lemma bind_error (e : ε) (f : α → Except ε β) :
    ((Except.error e : Except ε α) >>= f) = Except.error e := rfl

lemma bind_eq_ok {e : Except ε α} {f : α → Except ε β} {b : β}
    (h : (e >>= f) = .ok b) : ∃ a, e = .ok a ∧ f a = .ok b := by
  cases e with
  | error err => simp at h
  | ok a => exact ⟨a, rfl, h⟩

lemma isStringObj_encodeStrMap (m : List (String × String)) :
    Json.isStringObj (encodeStrMap m) = true := by
  induction m with
  | nil => rfl
  | cons p m ih =>
    simp only [encodeStrMap, Json.isStringObj, List.map_cons, List.all_cons] at ih ⊢
    simpa using ih

/-- C1: the claim says `Role::Owner` serde-serializes to the literal
string "owner" and `Role::Assistant` to "assistant", also when embedded
in a `Message`, and that decoding any other string fails.  The derived
serde implementation actually emits the variant names "Owner" and
"Assistant" (there is no rename attribute), rejects the lowercase
strings when decoding, and serializes the role inside a `Message` as
"Owner"; only `Role::as_str` (used by `create_message`) produces the
lowercase strings the claim and the spec describe.  This theorem
evaluates the code at those failing inputs. -/
theorem c1_role_serde_emits_variant_names :
    Role.toJson Role.Owner = Json.str "Owner" ∧
    Role.toJson Role.Assistant = Json.str "Assistant" ∧
    Role.fromJson (Json.str "owner") =
      Except.error "SchemaError: unknown variant for Role" ∧
    Role.fromJson (Json.str "assistant") =
      Except.error "SchemaError: unknown variant for Role" ∧
    getKey (Json.objFields (Message.toJson
      { role := Role.Owner, content := "hi", file_ids := none, metadata := [] }))
      "role" = some (Json.str "Owner") ∧
    Role.as_str Role.Owner = "owner" ∧
    Role.as_str Role.Assistant = "assistant" ∧
    getKey (Request.bodyKVs
      (Thread.createMessageRequest "t" Role.Owner "hi" none none)) "role" =
      some (Json.str "owner") :=
  ⟨rfl, rfl, rfl, rfl, rfl, rfl, rfl, rfl⟩

/-- C2: encoding a Message, MessageObject, Thread, Content or annotation
value to JSON and decoding it back yields the original value. -/
theorem c2_encode_decode_roundtrip :
    (∀ m : Message, Message.fromJson (Message.toJson m) = .ok m) ∧
    (∀ mo : MessageObject, MessageObject.fromJson (MessageObject.toJson mo) = .ok mo) ∧
    (∀ t : Thread, Thread.fromJson (Thread.toJson t) = .ok t) ∧
    (∀ c : Content, Content.fromJson (Content.toJson c) = .ok c) ∧
    (∀ a : Annot, Annot.fromJson (Annot.toJson a) = .ok a) :=
  ⟨message_roundtrip, messageObject_roundtrip, thread_roundtrip,
   content_roundtrip, annot_roundtrip⟩

/-- C5: each operation issues exactly the method and path of the spec's
section-6 table, with the body fields that table lists: create posts to
`threads` with messages and metadata, fetch gets the thread path with no
body, update posts the thread path with metadata, delete deletes the
thread path with no body, and create_message posts the messages path
with role, content, file_ids and metadata. -/
theorem c5_http_surface (messages : List Message) (tmd : List (String × String))
    (id1 id2 id3 id4 : String) (r : Role) (ct : String)
    (fids : Option (List String)) (mmd : Option Json) :
    (Thread.createRequest messages tmd).method = Method.POST ∧
    (Thread.createRequest messages tmd).path = "threads" ∧
    Request.bodyKeys (Thread.createRequest messages tmd) = ["messages", "metadata"] ∧
    (Thread.fromRequest id1).method = Method.GET ∧
    (Thread.fromRequest id1).path = "threads/" ++ id1 ∧
    (Thread.fromRequest id1).body = none ∧
    (Thread.updateRequest id2 tmd).method = Method.POST ∧
    (Thread.updateRequest id2 tmd).path = "threads/" ++ id2 ∧
    Request.bodyKeys (Thread.updateRequest id2 tmd) = ["metadata"] ∧
    (Thread.deleteRequest id3).method = Method.DELETE ∧
    (Thread.deleteRequest id3).path = "threads/" ++ id3 ∧
    (Thread.deleteRequest id3).body = none ∧
    (Thread.createMessageRequest id4 r ct fids mmd).method = Method.POST ∧
    (Thread.createMessageRequest id4 r ct fids mmd).path =
      "threads/" ++ id4 ++ "/messages" ∧
    Request.bodyKeys (Thread.createMessageRequest id4 r ct fids mmd) =
      ["role", "content", "file_ids", "metadata"] :=
  ⟨rfl, rfl, rfl, rfl, rfl, rfl, rfl, rfl, rfl, rfl, rfl, rfl, rfl, rfl, rfl⟩

/-- C6: the body built by `Thread::update` is exactly the single field
`metadata`; no `messages` field (or any other field) is ever sent, so
the call cannot alter the thread's message history. -/
theorem c6_update_body_is_only_metadata (id : String)
    (md : List (String × String)) :
    (Thread.updateRequest id md).body =
      some (Json.obj [("metadata", encodeStrMap md)]) ∧
    Request.bodyKeys (Thread.updateRequest id md) = ["metadata"] ∧
    getKey (Request.bodyKVs (Thread.updateRequest id md)) "messages" = none :=
  ⟨rfl, rfl, rfl⟩

/-- C7 counterexample: with `file_ids = None`, the body built by
`create_message` still contains the `file_ids` key, bound to JSON
`null` — the key is not omitted as the claim states (the `json!` macro
serializes `None` as `null`). -/
theorem c7_counterexample_file_ids_key_present :
    getKey (Request.bodyKVs
      (Thread.createMessageRequest "thread_abc" Role.Owner "hi" none none))
      "file_ids" = some Json.null ∧
    getKey (Request.bodyKVs
      (Thread.createMessageRequest "thread_abc" Role.Owner "hi" none none))
      "file_ids" ≠ none := by
  refine ⟨rfl, ?_⟩
  intro h
  simp [Thread.createMessageRequest, Request.bodyKVs, getKey] at h

/-- C7 amended: when the `file_ids` argument is `None`, the outgoing
body includes the `file_ids` key with the JSON value `null` (rather than
omitting the key). -/
theorem c7_amended_file_ids_none_is_null (id : String) (r : Role)
    (ct : String) (mmd : Option Json) :
    getKey (Request.bodyKVs (Thread.createMessageRequest id r ct none mmd))
      "file_ids" = some Json.null := rfl

/-- C8: `create_message` performs no local validation of the file id
list: for every list, of any length (in particular more than 10), the
request is built with the full unmodified list and issued as a POST. -/
theorem c8_no_local_file_id_limit (id : String) (r : Role) (ct : String)
    (fids : List String) (mmd : Option Json) :
    getKey (Request.bodyKVs
      (Thread.createMessageRequest id r ct (some fids) mmd)) "file_ids" =
      some (Json.arr (fids.map Json.str)) ∧
    (fids.map Json.str).length = fids.length ∧
    (Thread.createMessageRequest id r ct (some fids) mmd).method = Method.POST := by
  refine ⟨rfl, ?_, rfl⟩
  simp

/-- Whether a `Content` value is the text variant. -/
def Content.isText : Content → Bool
  | .text _ => true
  | .imageFile _ => false

/-- Whether a `Content` value is the image-file variant. -/
def Content.isImageFile : Content → Bool
  | .text _ => false
  | .imageFile _ => true

/-- C3: a Content payload whose `type` discriminator is `text` only ever
decodes to the text variant and never the image-file one, a `image_file`
discriminator only ever yields the image-file variant, and an
unrecognized discriminator on Content or on an annotation fails with a
SchemaError instead of defaulting to a variant. -/
theorem c3_discriminator_dispatch :
    (∀ kvs c, getKey kvs "type" = some (Json.str "text") →
        Content.fromJson (.obj kvs) = .ok c →
        c.isText = true ∧ c.isImageFile = false) ∧
    (∀ kvs c, getKey kvs "type" = some (Json.str "image_file") →
        Content.fromJson (.obj kvs) = .ok c →
        c.isImageFile = true ∧ c.isText = false) ∧
    (∀ kvs t, getKey kvs "type" = some (Json.str t) → t ≠ "text" →
        t ≠ "image_file" →
        Content.fromJson (.obj kvs) =
          .error ("SchemaError: unknown variant " ++ t)) ∧
    (∀ kvs t, getKey kvs "type" = some (Json.str t) → t ≠ "file_citation" →
        t ≠ "file_path" →
        Annot.fromJson (.obj kvs) =
          .error ("SchemaError: unknown variant " ++ t)) := by
  refine ⟨?_, ?_, ?_, ?_⟩
  · intro kvs c htag h
    simp only [Content.fromJson, htag] at h
    cases hf : TextContent.fromFields kvs with
    | error e => rw [hf] at h; simp [Except.map] at h
    | ok tc =>
      rw [hf] at h
      simp only [Except.map] at h
      injection h with h
      subst h
      exact ⟨rfl, rfl⟩
  · intro kvs c htag h
    simp only [Content.fromJson, htag] at h
    cases hf : ImageFileContent.fromFields kvs with
    | error e => rw [hf] at h; simp [Except.map] at h
    | ok ic =>
      rw [hf] at h
      simp only [Except.map] at h
      injection h with h
      subst h
      exact ⟨rfl, rfl⟩
  · intro kvs t htag h1 h2
    simp only [Content.fromJson, htag]
    rw [if_neg h1, if_neg h2]
  · intro kvs t htag h1 h2
    simp only [Annot.fromJson, htag]
    rw [if_neg h1, if_neg h2]

/-- C3 witness: the dispatch theorem applied at concrete payloads: a
`text`-tagged object, an `image_file`-tagged object, and a `bogus` tag
on Content and on an annotation. -/
theorem c3_discriminator_dispatch_witness :
    ((Content.text { text := { value := "hi", annotations := [] } }).isText = true ∧
      (Content.text { text := { value := "hi", annotations := [] } }).isImageFile = false) ∧
    ((Content.imageFile { image_file := { file_id := "f1" } }).isImageFile = true ∧
      (Content.imageFile { image_file := { file_id := "f1" } }).isText = false) ∧
    Content.fromJson (Json.obj [("type", Json.str "bogus")]) =
      Except.error ("SchemaError: unknown variant " ++ "bogus") ∧
    Annot.fromJson (Json.obj [("type", Json.str "bogus")]) =
      Except.error ("SchemaError: unknown variant " ++ "bogus") :=
  ⟨c3_discriminator_dispatch.1
      [("type", Json.str "text"),
       ("text", Json.obj [("value", Json.str "hi"), ("annotations", Json.arr [])])]
      (Content.text { text := { value := "hi", annotations := [] } }) rfl rfl,
   c3_discriminator_dispatch.2.1
      [("type", Json.str "image_file"),
       ("image_file", Json.obj [("file_id", Json.str "f1")])]
      (Content.imageFile { image_file := { file_id := "f1" } }) rfl rfl,
   c3_discriminator_dispatch.2.2.1 [("type", Json.str "bogus")] "bogus" rfl
      (by decide) (by decide),
   c3_discriminator_dispatch.2.2.2 [("type", Json.str "bogus")] "bogus" rfl
      (by decide) (by decide)⟩

/-- C4: decoding a MessageObject or a Message whose JSON omits the
`metadata` field succeeds with an empty metadata map; whenever decoding
succeeds without a `metadata` key the map is empty, and an otherwise
well-formed object lacking `metadata` does decode successfully. -/
theorem c4_metadata_absent_defaults_empty :
    (∀ kvs mo, getKey kvs "metadata" = none →
        MessageObject.fromJson (.obj kvs) = .ok mo → mo.metadata = []) ∧
    (∀ kvs m, getKey kvs "metadata" = none →
        Message.fromJson (.obj kvs) = .ok m → m.metadata = []) ∧
    (∀ r ct, Message.fromJson (.obj [("role", Role.toJson r), ("content", .str ct)]) =
        .ok { role := r, content := ct, file_ids := none, metadata := [] }) ∧
    (∀ i ob cr tid st r c, MessageObject.fromJson (.obj
        [("id", .str i), ("object", .str ob), ("created", .num (Fin.val cr)),
         ("thread_id", .str tid), ("status", .str st), ("role", Role.toJson r),
         ("content", Content.toJson c), ("file_ids", Json.null)]) =
        .ok { id := i, object := ob, created := cr, thread_id := tid,
              status := st, incomplete_details := none, role := r, content := c,
              file_ids := none, metadata := [] }) := by
  refine ⟨?_, ?_, ?_, ?_⟩
  · intro kvs mo hmeta h
    simp only [MessageObject.fromJson] at h
    obtain ⟨x1, h1, h⟩ := bind_eq_ok h
    obtain ⟨x2, h2, h⟩ := bind_eq_ok h
    obtain ⟨x3, h3, h⟩ := bind_eq_ok h
    obtain ⟨x4, h4, h⟩ := bind_eq_ok h
    obtain ⟨x5, h5, h⟩ := bind_eq_ok h
    obtain ⟨x6, h6, h⟩ := bind_eq_ok h
    obtain ⟨x7, h7, h⟩ := bind_eq_ok h
    obtain ⟨x8, h8, h⟩ := bind_eq_ok h
    obtain ⟨x9, h9, h⟩ := bind_eq_ok h
    obtain ⟨x10, h10, h⟩ := bind_eq_ok h
    simp only [getDef, hmeta] at h10
    injection h10 with h10
    simp only [pure, Except.pure] at h
    injection h with h
    subst h
    exact h10.symm
  · intro kvs m hmeta h
    simp only [Message.fromJson] at h
    obtain ⟨x1, h1, h⟩ := bind_eq_ok h
    obtain ⟨x2, h2, h⟩ := bind_eq_ok h
    obtain ⟨x3, h3, h⟩ := bind_eq_ok h
    obtain ⟨x4, h4, h⟩ := bind_eq_ok h
    simp only [getDef, hmeta] at h4
    injection h4 with h4
    simp only [pure, Except.pure] at h
    injection h with h
    subst h
    exact h4.symm
  · intro r ct
    cases r <;>
      simp [Message.fromJson, getReq, getOpt, getDef, getKey, Role.toJson,
            Role.fromJson, Json.asStr]
  · intro i ob cr tid st r c
    cases r <;>
      simp [MessageObject.fromJson, getReq, getOpt, getDef, getKey,
            Role.toJson, Role.fromJson, Json.asStr, asU32_num,
            content_roundtrip, Except.map]

/-- C4 witness: the default-metadata theorem applied to a concrete
MessageObject JSON and a concrete Message JSON, both lacking the
`metadata` key. -/
theorem c4_metadata_absent_defaults_empty_witness :
    ({ id := "m1", object := "thread.message", created := 0, thread_id := "t1",
       status := "completed", incomplete_details := none, role := Role.Owner,
       content := Content.imageFile { image_file := { file_id := "f1" } },
       file_ids := none, metadata := [] } : MessageObject).metadata = [] ∧
    ({ role := Role.Owner, content := "hi", file_ids := none,
       metadata := [] } : Message).metadata = [] :=
  ⟨c4_metadata_absent_defaults_empty.1
      [("id", Json.str "m1"), ("object", Json.str "thread.message"),
       ("created", Json.num 0), ("thread_id", Json.str "t1"),
       ("status", Json.str "completed"), ("role", Json.str "Owner"),
       ("content", Json.obj [("type", Json.str "image_file"),
          ("image_file", Json.obj [("file_id", Json.str "f1")])])]
      _ rfl rfl,
   c4_metadata_absent_defaults_empty.2.1
      [("role", Json.str "Owner"), ("content", Json.str "hi")] _ rfl rfl⟩

/-- C9 counterexample: the claim says the string-to-string typing of
message metadata holds at every point metadata is accepted, including
the metadata argument of `create_message` — but `create_message` takes
`Option<serde_json::Value>`, so a call with metadata `5` (not a
string-to-string object) is accepted and the request carries it. -/
theorem c9_counterexample_create_message_metadata :
    getKey (Request.bodyKVs (Thread.createMessageRequest "thread_abc" Role.Owner
      "hi" none (some (Json.num 5)))) "metadata" = some (Json.num 5) ∧
    Json.isStringObj (Json.num 5) = false ∧
    (Thread.createMessageRequest "thread_abc" Role.Owner "hi" none
      (some (Json.num 5))).method = Method.POST :=
  ⟨rfl, rfl, rfl⟩

/-- C9 amended: the metadata fields of `Message` and `MessageObject` are
string-to-string maps and serialize as all-string JSON objects, while
the metadata of a `Thread` and the metadata argument of `create_message`
are arbitrary JSON passed through unchanged. -/
theorem c9_amended_metadata_typing (m : Message) (mo : MessageObject)
    (t : Thread) (id : String) (r : Role) (ct : String)
    (fids : Option (List String)) (mj : Json) :
    getKey (Json.objFields (Message.toJson m)) "metadata" =
      some (encodeStrMap m.metadata) ∧
    Json.isStringObj (encodeStrMap m.metadata) = true ∧
    getKey (Json.objFields (MessageObject.toJson mo)) "metadata" =
      some (encodeStrMap mo.metadata) ∧
    Json.isStringObj (encodeStrMap mo.metadata) = true ∧
    getKey (Json.objFields (Thread.toJson t)) "metadata" = some t.metadata ∧
    getKey (Request.bodyKVs (Thread.createMessageRequest id r ct fids (some mj)))
      "metadata" = some mj := by
  refine ⟨?_, isStringObj_encodeStrMap m.metadata, ?_,
          isStringObj_encodeStrMap mo.metadata, ?_, ?_⟩ <;>
    simp [Message.toJson, MessageObject.toJson, Thread.toJson, Json.objFields,
          Thread.createMessageRequest, Request.bodyKVs, encodeOptJson, getKey]

/-- C10: decoding a Message or MessageObject whose JSON lacks the
`file_ids` key, or a MessageObject whose JSON lacks the
`incomplete_details` key, yields `none` for the missing field, and an
otherwise well-formed Message JSON without `file_ids` decodes
successfully. -/
theorem c10_optional_fields_absent_are_none :
    (∀ kvs m, getKey kvs "file_ids" = none →
        Message.fromJson (.obj kvs) = .ok m → m.file_ids = none) ∧
    (∀ kvs mo, getKey kvs "file_ids" = none →
        MessageObject.fromJson (.obj kvs) = .ok mo → mo.file_ids = none) ∧
    (∀ kvs mo, getKey kvs "incomplete_details" = none →
        MessageObject.fromJson (.obj kvs) = .ok mo →
        mo.incomplete_details = none) ∧
    (∀ r ct md, Message.fromJson (.obj [("role", Role.toJson r),
        ("content", .str ct), ("metadata", encodeStrMap md)]) =
        .ok { role := r, content := ct, file_ids := none, metadata := md }) := by
  refine ⟨?_, ?_, ?_, ?_⟩
  · intro kvs m hfid h
    simp only [Message.fromJson] at h
    obtain ⟨x1, h1, h⟩ := bind_eq_ok h
    obtain ⟨x2, h2, h⟩ := bind_eq_ok h
    obtain ⟨x3, h3, h⟩ := bind_eq_ok h
    obtain ⟨x4, h4, h⟩ := bind_eq_ok h
    simp only [getOpt, hfid] at h3
    injection h3 with h3
    simp only [pure, Except.pure] at h
    injection h with h
    subst h
    exact h3.symm
  · intro kvs mo hfid h
    simp only [MessageObject.fromJson] at h
    obtain ⟨x1, h1, h⟩ := bind_eq_ok h
    obtain ⟨x2, h2, h⟩ := bind_eq_ok h
    obtain ⟨x3, h3, h⟩ := bind_eq_ok h
    obtain ⟨x4, h4, h⟩ := bind_eq_ok h
    obtain ⟨x5, h5, h⟩ := bind_eq_ok h
    obtain ⟨x6, h6, h⟩ := bind_eq_ok h
    obtain ⟨x7, h7, h⟩ := bind_eq_ok h
    obtain ⟨x8, h8, h⟩ := bind_eq_ok h
    obtain ⟨x9, h9, h⟩ := bind_eq_ok h
    obtain ⟨x10, h10, h⟩ := bind_eq_ok h
    simp only [getOpt, hfid] at h9
    injection h9 with h9
    simp only [pure, Except.pure] at h
    injection h with h
    subst h
    exact h9.symm
  · intro kvs mo hicd h
    simp only [MessageObject.fromJson] at h
    obtain ⟨x1, h1, h⟩ := bind_eq_ok h
    obtain ⟨x2, h2, h⟩ := bind_eq_ok h
    obtain ⟨x3, h3, h⟩ := bind_eq_ok h
    obtain ⟨x4, h4, h⟩ := bind_eq_ok h
    obtain ⟨x5, h5, h⟩ := bind_eq_ok h
    obtain ⟨x6, h6, h⟩ := bind_eq_ok h
    obtain ⟨x7, h7, h⟩ := bind_eq_ok h
    obtain ⟨x8, h8, h⟩ := bind_eq_ok h
    obtain ⟨x9, h9, h⟩ := bind_eq_ok h
    obtain ⟨x10, h10, h⟩ := bind_eq_ok h
    simp only [getOpt, hicd] at h6
    injection h6 with h6
    simp only [pure, Except.pure] at h
    injection h with h
    subst h
    exact h6.symm
  · intro r ct md
    cases r <;>
      simp [Message.fromJson, getReq, getOpt, getDef, getKey, Role.toJson,
            Role.fromJson, Json.asStr, Json.asStrMap, encodeStrMap,
            decStrPairs_encode]

/-- C10 witness: the optional-field theorem applied to concrete Message
and MessageObject JSON objects lacking `file_ids` and
`incomplete_details`. -/
theorem c10_optional_fields_absent_are_none_witness :
    ({ role := Role.Assistant, content := "ok", file_ids := none,
       metadata := [("k", "v")] } : Message).file_ids = none ∧
    ({ id := "m2", object := "thread.message", created := 7, thread_id := "t2",
       status := "completed", incomplete_details := none, role := Role.Assistant,
       content := Content.imageFile { image_file := { file_id := "f2" } },
       file_ids := none, metadata := [] } : MessageObject).file_ids = none ∧
    ({ id := "m2", object := "thread.message", created := 7, thread_id := "t2",
       status := "completed", incomplete_details := none, role := Role.Assistant,
       content := Content.imageFile { image_file := { file_id := "f2" } },
       file_ids := none, metadata := [] } : MessageObject).incomplete_details = none :=
  ⟨c10_optional_fields_absent_are_none.1
      [("role", Json.str "Assistant"), ("content", Json.str "ok"),
       ("metadata", Json.obj [("k", Json.str "v")])] _ rfl rfl,
   c10_optional_fields_absent_are_none.2.1
      [("id", Json.str "m2"), ("object", Json.str "thread.message"),
       ("created", Json.num 7), ("thread_id", Json.str "t2"),
       ("status", Json.str "completed"), ("role", Json.str "Assistant"),
       ("content", Json.obj [("type", Json.str "image_file"),
          ("image_file", Json.obj [("file_id", Json.str "f2")])])]
      _ rfl rfl,
   c10_optional_fields_absent_are_none.2.2.1
      [("id", Json.str "m2"), ("object", Json.str "thread.message"),
       ("created", Json.num 7), ("thread_id", Json.str "t2"),
       ("status", Json.str "completed"), ("role", Json.str "Assistant"),
       ("content", Json.obj [("type", Json.str "image_file"),
          ("image_file", Json.obj [("file_id", Json.str "f2")])])]
      _ rfl rfl⟩
